import Mathlib

/-!
# Fooyin: a verification development

Shallow embedding of the parts of the repository that the specification talks about:

* `src/plugins/filters/filterfwd.h`: `FilterEntry` and its comparison operators;
* `src/gui/settings/playback/replaygainpage.cpp`: `ReplayGainWidget::load` and `apply`;
* `src/app/application.cpp`: the wiring, widget registration and start-up of `Application`;
* the Synchronizer and the Player Controller, whose code is not part of the sources at hand
  and which are modelled from the specification.

Definitions come first, theorems afterwards.
-/

namespace Fooyin

/-! ## plugins/filters/filterfwd.h -/

/-- A QString, as its sequence of UTF-16 code units. -/
abbrev QString := List Nat

/-- The `operator<` of QString: comparison code unit by code unit, a proper prefix of a string
being smaller than the string. -/
def QString.lt : QString → QString → Bool
  | [], [] => false
  | [], _ :: _ => true
  | _ :: _, [] => false
  | a :: as, b :: bs =>
    if a < b then true
    else if b < a then false
    else QString.lt as bs

/-- The `operator==` of QString: same length and same code units. -/
def QString.eq (s t : QString) : Bool := decide (s = t)

/-- The struct FilterEntry: `int id; QString name;`. -/
structure FilterEntry where
  id : Int
  name : QString
  deriving DecidableEq, Repr

/-- The `operator<` of `std::tuple<int, QString>`: the first components decide unless neither
is smaller than the other, in which case the second components decide. -/
def tupleLt (a b : Int × QString) : Bool :=
  if a.1 < b.1 then true
  else if b.1 < a.1 then false
  else QString.lt a.2 b.2

/-- The `operator==` of `std::tuple<int, QString>`: all components equal. -/
def tupleEq (a b : Int × QString) : Bool :=
  decide (a.1 = b.1) && QString.eq a.2 b.2

/-- The member `FilterEntry::operator<(const FilterEntry& other)`:
`std::tuple(id, name) < std::tuple(other.id, other.name)`. -/
def FilterEntry.lt (self other : FilterEntry) : Bool :=
  tupleLt (self.id, self.name) (other.id, other.name)

/-- The member `FilterEntry::operator==(const FilterEntry& other)`:
`std::tuple(id, name) == std::tuple(other.id, other.name)`. -/
def FilterEntry.eq (self other : FilterEntry) : Bool :=
  tupleEq (self.id, self.name) (other.id, other.name)

/-- The member `FilterEntry::operator==(int otherId)`. -/
def FilterEntry.eqId (self : FilterEntry) (otherId : Int) : Bool :=
  decide (self.id = otherId)

/-- The member `FilterEntry::operator==(const QString& otherName)`. -/
def FilterEntry.eqName (self : FilterEntry) (otherName : QString) : Bool :=
  QString.eq self.name otherName

/-- The equivalence under which `std::set<FilterEntry>` (FilterEntrySet, ordered by
`std::less<FilterEntry>`, that is by `operator<`) takes two keys for the same key:
neither is smaller than the other. -/
def FilterEntrySet.duplicates (a b : FilterEntry) : Bool :=
  !FilterEntry.lt a b && !FilterEntry.lt b a

/-! ## gui/settings/playback/replaygainpage.cpp -/

/-- The enumerators the page uses, whose declarations (`ReplayGainType` and the processing
flags of `AudioEngine`) are in headers outside the sources at hand: they are parameters, and
so are the two conversions between the stored int and `ReplayGainType`, which depend on the
underlying type of the enumeration. A value of `ReplayGainType` is given by its value in the
underlying type; the stored settings are of type int, and so are the processing flags. -/
structure RGConstants where
  /-- The value of `ReplayGainType::Track`, in the underlying type. -/
  track : Int
  /-- The value of `ReplayGainType::Album`, in the underlying type. -/
  album : Int
  /-- The value of `AudioEngine::NoProcessing`. -/
  noProcessing : Int
  /-- The value of `AudioEngine::ApplyGain`. -/
  applyGain : Int
  /-- The value of `AudioEngine::PreventClipping`. -/
  preventClipping : Int
  /-- The conversion `static_cast<ReplayGainType>(int)`: the value of the underlying type that
  a stored int converts to. -/
  toGainType : Int → Int
  /-- The conversion `static_cast<int>(ReplayGainType)`. -/
  toInt : Int → Int

/-- The value of `AudioEngine::ApplyGain | AudioEngine::PreventClipping`. -/
def RGConstants.applyGainPreventClipping (k : RGConstants) : Int :=
  Int.lor k.applyGain k.preventClipping

/-- The two settings of the SettingsManager that the claims are about, `Settings::Core::RGMode`
and `Settings::Core::RGType`, both stored as int. The two pre-amplification settings are
floating point values written to keys of their own and are not part of this model. -/
structure RGSettings where
  rgMode : Int
  rgType : Int
  deriving DecidableEq, Repr

/-- A QComboBox: its items (text and user data) and its current index, -1 for none. -/
structure QComboBox where
  items : List (String × Int)
  currentIndex : Int
  deriving DecidableEq, Repr

/-- The call `QComboBox::addItem(text, userData)`: the item is appended; a combo box that was
empty makes it the current item. -/
def QComboBox.addItem (c : QComboBox) (text : String) (userData : Int) : QComboBox :=
  { items := c.items ++ [(text, userData)]
    currentIndex := if c.items.isEmpty then 0 else c.currentIndex }

/-- The position, counted from `i`, of the first item whose data is `data`; -1 for none. -/
def findDataFrom (data : Int) : List (String × Int) → Int → Int
  | [], _ => -1
  | it :: rest, i => if it.2 = data then i else findDataFrom data rest (i + 1)

/-- The call `QComboBox::findData(data)`: the index of the first item holding `data`,
otherwise -1. -/
def QComboBox.findData (c : QComboBox) (data : Int) : Int :=
  findDataFrom data c.items 0

/-- The call `QComboBox::setCurrentIndex(index)`; an index that is not an item leaves the
combo box without a current item. -/
def QComboBox.setCurrentIndex (c : QComboBox) (index : Int) : QComboBox :=
  { c with currentIndex := if 0 ≤ index ∧ index < c.items.length then index else -1 }

/-- The call `QComboBox::currentData()`: the data of the current item, none (an invalid
QVariant) when there is no current item. -/
def QComboBox.currentData (c : QComboBox) : Option Int :=
  if 0 ≤ c.currentIndex then (c.items.get? c.currentIndex.toNat).map Prod.snd else none

/-- The call `QVariant::toInt()`: an invalid variant gives 0. -/
def variantToInt : Option Int → Int
  | some v => v
  | none => 0

/-- The state of a ReplayGainWidget: the mode combo box `m_process` and the two radio
buttons `m_trackGain` and `m_albumGain`, which the constructor puts in one QButtonGroup. -/
structure ReplayGainWidget where
  process : QComboBox
  trackGain : Bool
  albumGain : Bool
  deriving DecidableEq, Repr

/-- The constructor `ReplayGainWidget::ReplayGainWidget`: two unchecked radio buttons and the
four entries of the mode combo box. -/
def ReplayGainWidget.new (k : RGConstants) : ReplayGainWidget :=
  let process : QComboBox := { items := [], currentIndex := -1 }
  let process := process.addItem "None" k.noProcessing
  let process := process.addItem "Apply gain" k.applyGain
  let process := process.addItem "Apply gain and prevent clipping according to peak"
    k.applyGainPreventClipping
  let process := process.addItem "Only prevent clipping according to peak" k.preventClipping
  { process := process, trackGain := false, albumGain := false }

/-- The call `m_trackGain->setChecked(true)`: the buttons are in an exclusive button group, so
the other button is unchecked. -/
def ReplayGainWidget.checkTrackGain (w : ReplayGainWidget) : ReplayGainWidget :=
  { w with trackGain := true, albumGain := false }

/-- The call `m_albumGain->setChecked(true)`, which unchecks the other button of the group. -/
def ReplayGainWidget.checkAlbumGain (w : ReplayGainWidget) : ReplayGainWidget :=
  { w with trackGain := false, albumGain := true }

/-- The method `ReplayGainWidget::load()`, on the mode and the type. -/
def ReplayGainWidget.load (k : RGConstants) (settings : RGSettings) (w : ReplayGainWidget) :
    ReplayGainWidget :=
  let mode := w.process.findData settings.rgMode
  let w := { w with process := w.process.setCurrentIndex (if mode ≥ 0 then mode else 0) }
  let gainType := k.toGainType settings.rgType
  if gainType = k.track then w.checkTrackGain else w.checkAlbumGain

/-- The method `ReplayGainWidget::apply()`, on the mode and the type. -/
def ReplayGainWidget.apply (k : RGConstants) (settings : RGSettings) (w : ReplayGainWidget) :
    RGSettings :=
  let settings := { settings with rgMode := variantToInt w.process.currentData }
  { settings with rgType := k.toInt (if w.trackGain then k.track else k.album) }

/-- The data of the four entries, in the order of the constructor. -/
def RGConstants.modes (k : RGConstants) : List Int :=
  [k.noProcessing, k.applyGain, k.applyGainPreventClipping, k.preventClipping]

/-- One possible declaration: Track = 0 and Album = 1 in an enumeration over an unsigned type
of eight bits, so that a stored int converts to its residue modulo 256, and NoProcessing = 0,
ApplyGain = 1, PreventClipping = 2. -/
def exampleConstants : RGConstants :=
  { track := 0, album := 1, noProcessing := 0, applyGain := 1, preventClipping := 2
    toGainType := fun t => t % 256
    toInt := fun g => g }

/-! ## app/application.cpp -/

/-- The data members of `Application::Private`. -/
inductive Member
  | actionManager | settingsManager | coreSettings | threadManager | database
  | playerManager | engine | playlistHandler | playlistInterface | libraryManager | library
  | widgetFactory | widgetProvider | guiSettings | settingsDialog | editableLayout | mainWindow
  | pluginManager | widgetContext | threadContext | databaseContext | settingsContext
  deriving DecidableEq, Repr

/-- The members in the order of their declaration, which is the order of their construction. -/
def Private.members : List Member :=
  [.actionManager, .settingsManager, .coreSettings, .threadManager, .database,
   .playerManager, .engine, .playlistHandler, .playlistInterface, .libraryManager, .library,
   .widgetFactory, .widgetProvider, .guiSettings, .settingsDialog, .editableLayout, .mainWindow,
   .pluginManager, .widgetContext, .threadContext, .databaseContext, .settingsContext]

/-- The members that the initialiser list of `Private::Private()` hands to the constructor of
each member; a member that is not in the list is default constructed. -/
def Private.ctorArgs : Member → List Member
  | .coreSettings => [.settingsManager]
  | .database => [.settingsManager]
  | .playerManager => [.settingsManager]
  | .engine => [.playerManager]
  | .playlistHandler => [.playerManager]
  | .playlistInterface => [.playlistHandler]
  | .libraryManager => [.database]
  | .library => [.playlistInterface, .libraryManager, .threadManager, .database, .settingsManager]
  | .widgetProvider => [.widgetFactory]
  | .guiSettings => [.settingsManager]
  | .settingsDialog => [.libraryManager, .settingsManager]
  | .editableLayout => [.settingsManager, .actionManager, .widgetFactory, .widgetProvider]
  | .mainWindow => [.actionManager, .settingsManager, .settingsDialog, .editableLayout]
  | .widgetContext => [.actionManager, .playerManager, .library, .widgetFactory]
  | .threadContext => [.threadManager]
  | .databaseContext => [.database]
  | .settingsContext => [.settingsManager, .settingsDialog]
  | .actionManager => []
  | .settingsManager => []
  | .threadManager => []
  | .widgetFactory => []
  | .pluginManager => []

/-- The components of the specification that `Application::Private` instantiates. -/
inductive Component
  | libraryModel | playlistManager | playerController
  deriving DecidableEq, Repr

/-- The members that make up a component: `library` is the `Core::Library::MusicLibrary`,
`playlistHandler` and `playlistInterface` are the `Core::Playlist::PlaylistHandler` and the
`Core::Playlist::LibraryPlaylistManager`, `playerManager` is the
`Core::Player::PlayerController`. -/
def Component.members : Component → List Member
  | .libraryModel => [.library]
  | .playlistManager => [.playlistHandler, .playlistInterface]
  | .playerController => [.playerManager]

/-- Whether a member of component `a` is constructed with a member of component `b`. -/
def Private.constructedWith (a b : Component) : Bool :=
  a.members.any fun m => (Private.ctorArgs m).any fun arg => b.members.contains arg

/-- The members reached from `m` through at most `n` constructor arguments. -/
def Private.reach : Nat → Member → List Member
  | 0, _ => []
  | n + 1, m => Private.ctorArgs m ++ (Private.ctorArgs m).flatMap (Private.reach n)

/-- Whether a member of component `a` depends, through any chain of constructor arguments, on
a member of component `b`; no chain is longer than the number of members. -/
def Private.dependsOn (a b : Component) : Bool :=
  a.members.any fun m =>
    (Private.reach Private.members.length m).any fun arg => b.members.contains arg

/-- The widget classes that `registerWidgets` has creators for. -/
inductive WidgetClass
  | ControlWidget | InfoWidget | CoverWidget | PlaylistWidget | Spacer
  | VerticalSplitterWidget | HorizontalSplitterWidget | StatusWidget
  deriving DecidableEq, Repr

/-- One call of `widgetFactory.registerClass<T>(key, creator, subMenus)`. -/
structure Registration where
  key : String
  creator : WidgetClass
  subMenus : List String
  deriving DecidableEq, Repr

/-- The calls of `Application::Private::registerWidgets`, in order. -/
def Private.registrations : List Registration :=
  [ { key := "Controls", creator := .ControlWidget, subMenus := [] },
    { key := "Info", creator := .InfoWidget, subMenus := [] },
    { key := "Artwork", creator := .CoverWidget, subMenus := [] },
    { key := "Playlist", creator := .PlaylistWidget, subMenus := [] },
    { key := "Spacer", creator := .Spacer, subMenus := [] },
    { key := "Vertical Splitter", creator := .VerticalSplitterWidget, subMenus := ["Splitter"] },
    { key := "Horizontal Splitter", creator := .HorizontalSplitterWidget,
      subMenus := ["Splitter"] },
    { key := "Status", creator := .StatusWidget, subMenus := [] } ]

/-- What a registry keyed by name does with a key that is already registered. The class
`WidgetFactory` is declared in a header outside the sources at hand, so both are considered. -/
inductive ClashPolicy
  | reject | overwrite
  deriving DecidableEq, Repr

/-- Modelled from the spec: the `WidgetFactory` of `gui/widgetfactory.h`, which is not in the
sources at hand, as a registry keyed by logical name; a default constructed factory is empty. -/
structure WidgetFactory where
  widgets : List (String × Registration)
  deriving DecidableEq, Repr

/-- The entries registered under `key`. -/
def WidgetFactory.entries (f : WidgetFactory) (key : String) : List Registration :=
  (f.widgets.filter fun e => e.1 = key).map Prod.snd

/-- The creator that `key` maps to. -/
def WidgetFactory.creator? (f : WidgetFactory) (key : String) : Option WidgetClass :=
  (f.entries key).head?.map Registration.creator

/-- Modelled from the spec: the missing `WidgetFactory::registerClass`, keyed by name. The
result says whether the registration went through untouched by another one: it is false when
the key was taken, in which case the registration is dropped or replaces the earlier one. -/
def WidgetFactory.registerClass (p : ClashPolicy) (f : WidgetFactory) (r : Registration) :
    WidgetFactory × Bool :=
  if f.widgets.any (fun e => e.1 = r.key) then
    match p with
    | .reject => (f, false)
    | .overwrite => ({ widgets := f.widgets.map fun e => if e.1 = r.key then (e.1, r) else e },
                     false)
  else ({ widgets := f.widgets ++ [(r.key, r)] }, true)

/-- The method `Application::Private::registerWidgets`: the registrations, one after the
other, with the result of each. -/
def Private.registerWidgets (p : ClashPolicy) (f : WidgetFactory) : WidgetFactory × List Bool :=
  Private.registrations.foldl
    (fun acc r => let res := acc.1.registerClass p r; (res.1, acc.2 ++ [res.2]))
    (f, [])

/-- The calls that the code of `application.cpp` makes on its collaborators. -/
inductive Call
  | setMainWindow | setDeleteOnClose | moveEngineToNewThread
  | connectLibraryAdded | connectLibraryRemoved
  | registerClass (key : String)
  | findPlugins | loadPlugins
  | initialiseWidgetPlugins | initialiseSettingsPlugins | initialiseThreadPlugins
  | initialiseDatabasePlugins | initialisePlugins
  | connectQuitThreadManager | connectQuitPluginManager
  | loadSettings | restoreState | libraryLoad
  | settingsDialogSetupUi | mainWindowSetupUi | mainWindowShow
  | storeSettings | databaseCleanup | closeDatabase
  deriving DecidableEq, Repr

/-- The calls made so far, oldest first. -/
abbrev Trace := List Call

/-- One more call. -/
def Trace.call (t : Trace) (c : Call) : Trace := t ++ [c]

/-- The method `Application::Private::setupConnections`. -/
def Private.setupConnections (t : Trace) : Trace :=
  (t.call .connectLibraryAdded).call .connectLibraryRemoved

/-- The calls of `Application::Private::registerWidgets`. -/
def Private.registerWidgetsCalls (t : Trace) : Trace :=
  Private.registrations.foldl (fun t r => t.call (.registerClass r.key)) t

/-- The method `Application::Private::initialisePlugins`. -/
def Private.initialisePlugins (t : Trace) : Trace :=
  ((((t.call .initialiseWidgetPlugins).call .initialiseSettingsPlugins).call
    .initialiseThreadPlugins).call .initialiseDatabasePlugins).call .initialisePlugins

/-- The body of the constructor `Application::Private::Private`. -/
def Private.ctor (t : Trace) : Trace :=
  let t := t.call .setMainWindow
  let t := t.call .setDeleteOnClose
  let t := t.call .moveEngineToNewThread
  let t := Private.setupConnections t
  let t := Private.registerWidgetsCalls t
  let t := t.call .findPlugins
  let t := t.call .loadPlugins
  Private.initialisePlugins t

/-- The method `Application::startup`. -/
def Application.startup (t : Trace) : Trace :=
  let t := t.call .loadSettings
  let t := t.call .restoreState
  let t := t.call .libraryLoad
  let t := t.call .settingsDialogSetupUi
  let t := t.call .mainWindowSetupUi
  t.call .mainWindowShow

/-- The constructor `Application::Application`: the private part is made, the two shutdown
connections are set up, and `startup` runs. -/
def Application.ctor (t : Trace) : Trace :=
  let t := Private.ctor t
  let t := t.call .connectQuitThreadManager
  let t := t.call .connectQuitPluginManager
  Application.startup t

/-- The method `Application::shutdown`. -/
def Application.shutdown (t : Trace) : Trace :=
  ((t.call .storeSettings).call .databaseCleanup).call .closeDatabase

/-- The position of the first occurrence of a call in a trace. -/
def Trace.position (t : Trace) (c : Call) : Nat := t.indexOf c

/-- Whether `a` is called, and `b` is called, and the first call of `a` comes before the first
call of `b`. -/
def Trace.before (t : Trace) (a b : Call) : Bool :=
  decide (a ∈ t) && decide (b ∈ t) && decide (t.position a < t.position b)

/-! ## Player Controller (specification, section 4.7)

The class `Core::Player::PlayerController` is constructed in `application.cpp`, but its code is
not in the sources at hand. -/

/-- The playback states of the specification. -/
inductive PlaybackState
  | Stopped | Playing | Paused | Stopping
  deriving DecidableEq, Repr

/-- The conditions that the Player Controller reports to its caller. -/
inductive PlayerCondition
  | InvalidStateTransition | NoTrack | EngineError
  deriving DecidableEq, Repr

/-- The outcome of a command: done, or rejected with a condition. -/
abbrev PlayerResult := Except PlayerCondition Unit

/-- Modelled from the spec: the state of the Player Controller, which is missing from the
sources: the playback state, Stopped to begin with, and the track that is loaded. -/
structure PlayerController where
  state : PlaybackState
  track : Option Nat
  deriving DecidableEq, Repr

/-- Modelled from the spec: the initial Player Controller, which is Stopped. -/
def PlayerController.initial : PlayerController := { state := .Stopped, track := none }

/-- Modelled from the spec: the missing `play()`, valid from Stopped and Paused, where it asks
the Playlist Manager for the current track (`current`, none for NotFound): without a track the
state stays as it is and "no track" is reported, with one the controller is Playing. -/
def PlayerController.play (pc : PlayerController) (current : Option Nat) :
    PlayerController × PlayerResult :=
  match pc.state with
  | .Stopped | .Paused =>
    match current with
    | none => (pc, .error .NoTrack)
    | some t => ({ state := .Playing, track := some t }, .ok ())
  | .Playing | .Stopping => (pc, .error .InvalidStateTransition)

/-- Modelled from the spec: the missing `pause()`, valid only from Playing, which it leaves for
Paused. -/
def PlayerController.pause (pc : PlayerController) : PlayerController × PlayerResult :=
  match pc.state with
  | .Playing => ({ pc with state := .Paused }, .ok ())
  | .Stopped | .Paused | .Stopping => (pc, .error .InvalidStateTransition)

/-- Modelled from the spec: the missing `stop()`, valid from Playing and Paused, which it
leaves for Stopping. -/
def PlayerController.stop (pc : PlayerController) : PlayerController × PlayerResult :=
  match pc.state with
  | .Playing | .Paused => ({ pc with state := .Stopping }, .ok ())
  | .Stopped | .Stopping => (pc, .error .InvalidStateTransition)

/-- Modelled from the spec: the external engine confirms the teardown, which takes Stopping to
Stopped. -/
def PlayerController.teardownConfirmed (pc : PlayerController) : PlayerController :=
  match pc.state with
  | .Stopping => { pc with state := .Stopped }
  | .Stopped | .Playing | .Paused => pc

/-- Modelled from the spec: the signal `trackEnded` of the external engine, with the answer of
`next()` of the Playlist Manager. When Playing, the controller plays the next track or is
Stopped if none remains; the signal is ignored in the other states, Stopping among them. -/
def PlayerController.trackEnded (pc : PlayerController) (next : Option Nat) : PlayerController :=
  match pc.state with
  | .Playing =>
    match next with
    | some t => { state := .Playing, track := some t }
    | none => { pc with state := .Stopped }
  | .Stopped | .Paused | .Stopping => pc

/-- Modelled from the spec: a seek, valid only when Playing or Paused and otherwise an error
that is reported and changes nothing. -/
def PlayerController.seek (pc : PlayerController) (_position : Nat) :
    PlayerController × PlayerResult :=
  match pc.state with
  | .Playing | .Paused => (pc, .ok ())
  | .Stopped | .Stopping => (pc, .error .InvalidStateTransition)

/-- Modelled from the spec: an error of the external engine forces Stopped from any state and
is passed upward. -/
def PlayerController.engineError (pc : PlayerController) : PlayerController × PlayerResult :=
  ({ pc with state := .Stopped }, .error .EngineError)

/-! ## Synchronizer (specification, sections 3 and 4.3)

The scanner is included by `application.cpp` (`core/library/libraryscanner.h`), but the code
that reconciles a scan with the library is not in the sources at hand. -/

/-- The fingerprint of a file: its size and its modification time. -/
structure Fingerprint where
  size : Nat
  mtime : Nat
  deriving DecidableEq, Repr

/-- The metadata of a track that the extractor reads (the replay-gain values, which are
floating point, are left out). -/
structure Metadata where
  title : String
  artist : String
  album : String
  albumArtist : String
  genre : String
  year : Nat
  trackNumber : Nat
  duration : Nat
  deriving DecidableEq, Repr

/-- A track: its id, its identity (source path and fingerprint) and its metadata. -/
structure Track where
  id : Nat
  path : String
  fingerprint : Fingerprint
  metadata : Metadata
  deriving DecidableEq, Repr

/-- A scan delta: the tracks added, the modified tracks as pairs (old, new), and the ids of
the tracks removed. -/
structure ScanDelta where
  added : List Track
  modified : List (Track × Track)
  removed : List Nat
  deriving DecidableEq, Repr

/-- Modelled from the spec: the LibrarySnapshot, all known tracks, looked up by fingerprint
and by path. -/
structure LibrarySnapshot where
  tracks : List Track
  deriving DecidableEq, Repr

/-- The map from fingerprint to existing track of step 1. -/
def LibrarySnapshot.byFingerprint (L : LibrarySnapshot) (fp : Fingerprint) : Option Track :=
  L.tracks.find? fun t => t.fingerprint = fp

/-- The lookup of a track by its path. -/
def LibrarySnapshot.byPath (L : LibrarySnapshot) (path : String) : Option Track :=
  L.tracks.find? fun t => t.path = path

/-- The invariant of the data model that fingerprints are unique keys within the library: no
two tracks of the snapshot have the same fingerprint. -/
def LibrarySnapshot.fingerprintsUnique (L : LibrarySnapshot) : Prop :=
  (L.tracks.map Track.fingerprint).Nodup

instance (L : LibrarySnapshot) : Decidable L.fingerprintsUnique :=
  inferInstanceAs (Decidable (List.Nodup _))

/-- The snapshot has no fingerprint collision: two tracks of the snapshot with the same
fingerprint are at the same path. A snapshot whose fingerprints are unique keys is one. -/
def LibrarySnapshot.collisionFree (L : LibrarySnapshot) : Prop :=
  ∀ t ∈ L.tracks, ∀ u ∈ L.tracks, t.fingerprint = u.fingerprint → t.path = u.path

instance (L : LibrarySnapshot) : Decidable L.collisionFree :=
  inferInstanceAs (Decidable (∀ t ∈ L.tracks, ∀ u ∈ L.tracks, _ → _))

/-- The first id that no track of the snapshot has. -/
def LibrarySnapshot.freshId (L : LibrarySnapshot) : Nat :=
  (L.tracks.map Track.id).foldl max 0 + 1

/-- The state of one reconcile pass: the scanned files matched to an existing track by their
fingerprint, the paths observed or recorded as still valid, the delta so far, and the next new
id. -/
structure SyncState where
  matched : List (String × Fingerprint)
  observed : List String
  added : List Track
  modified : List (Track × Track)
  nextId : Nat
  deriving DecidableEq, Repr

/-- A scanned file treated as added (step 4): its metadata is extracted and it gets a new id;
a file whose extraction fails is left out of the delta. -/
def SyncState.add (extract : String → Option Metadata) (st : SyncState)
    (path : String) (fp : Fingerprint) : SyncState :=
  match extract path with
  | some m =>
    { st with
      added := st.added ++ [{ id := st.nextId, path := path, fingerprint := fp, metadata := m }]
      nextId := st.nextId + 1 }
  | none => st

/-- Modelled from the spec: steps 2 to 4 of the missing `reconcile`, for one scanned file,
with the tie-break: a fingerprint of the map that an earlier file at another path was matched
to in this pass is a collision, and the file is added under a new id. -/
def reconcileStep (extract : String → Option Metadata) (L : LibrarySnapshot)
    (st : SyncState) (file : String × Fingerprint) : SyncState :=
  let path := file.1
  let fp := file.2
  let st := { st with observed := path :: st.observed }
  match L.byFingerprint fp with
  | some t =>
    if st.matched.any (fun f => f.2 = fp ∧ f.1 ≠ path) then
      st.add extract path fp
    else
      { st with matched := (path, fp) :: st.matched, observed := t.path :: st.observed }
  | none =>
    match L.byPath path with
    | some old =>
      match extract path with
      | some m =>
        { st with
          modified := st.modified ++ [(old, { old with fingerprint := fp, metadata := m })] }
      | none => st
    | none => st.add extract path fp

/-- Modelled from the spec: the missing `reconcile(scanResults, librarySnapshot)` of the
Synchronizer, by the five steps of section 4.3; `extract` is the Metadata Extractor. A track of
the snapshot whose path was not observed in the pass is removed (step 5). -/
def reconcile (extract : String → Option Metadata) (scanResults : List (String × Fingerprint))
    (L : LibrarySnapshot) : ScanDelta :=
  let st := scanResults.foldl (reconcileStep extract L)
    { matched := [], observed := [], added := [], modified := [], nextId := L.freshId }
  { added := st.added
    modified := st.modified
    removed := (L.tracks.filter fun t => !st.observed.contains t.path).map Track.id }

/-- An extractor for the examples: every file is readable, its title is its path. -/
def exampleExtract (path : String) : Option Metadata :=
  some { title := path, artist := "", album := "", albumArtist := "", genre := "",
         year := 0, trackNumber := 0, duration := 1 }

/-- The track A of the example of section 8, with fingerprint fp1. -/
def exampleTrackA : Track :=
  { id := 1, path := "/music/a.flac", fingerprint := ⟨10, 100⟩,
    metadata := { title := "a", artist := "", album := "", albumArtist := "", genre := "",
                  year := 0, trackNumber := 0, duration := 1 } }

/-- The track B of the example of section 8, with fingerprint fp2. -/
def exampleTrackB : Track :=
  { id := 2, path := "/music/b.flac", fingerprint := ⟨20, 200⟩,
    metadata := { title := "b", artist := "", album := "", albumArtist := "", genre := "",
                  year := 0, trackNumber := 0, duration := 1 } }

/-- The library of the example of section 8: A and B. -/
def exampleLibrary : LibrarySnapshot := { tracks := [exampleTrackA, exampleTrackB] }

/-- A second file with the size and the modification time of A, at another path, as the
tie-break adds it to the example library: under the new id 3, with extracted metadata. -/
def exampleTrackA2 : Track :=
  { id := 3, path := "/music/a2.flac", fingerprint := ⟨10, 100⟩,
    metadata := { title := "/music/a2.flac", artist := "", album := "", albumArtist := "",
                  genre := "", year := 0, trackNumber := 0, duration := 1 } }

theorem QString.qlt_irrefl (s : QString) : QString.lt s s = false := by
  induction s with
  | nil => rfl
  | cons a as ih => simp [QString.lt, ih]

theorem QString.qlt_trans : ∀ (s t u : QString),
    QString.lt s t = true → QString.lt t u = true → QString.lt s u = true
  | [], [], _, h, _ => by simp [QString.lt] at h
  | [], _ :: _, [], _, h => by simp [QString.lt] at h
  | [], _ :: _, _ :: _, _, _ => by simp [QString.lt]
  | _ :: _, [], _, h, _ => by simp [QString.lt] at h
  | _ :: _, _ :: _, [], _, h => by simp [QString.lt] at h
  | a :: as, b :: bs, c :: cs, h₁, h₂ => by
    have ih := QString.qlt_trans as bs cs
    simp only [QString.lt] at h₁ h₂ ⊢
    by_cases hab : a < b
    · by_cases hbc : b < c
      · simp [Nat.lt_trans hab hbc]
      · by_cases hcb : c < b
        · simp [hbc, hcb] at h₂
        · have : b = c := Nat.le_antisymm (Nat.not_lt.mp hcb) (Nat.not_lt.mp hbc)
          subst this
          simp [hab]
    · by_cases hba : b < a
      · simp [hab, hba] at h₁
      · have : a = b := Nat.le_antisymm (Nat.not_lt.mp hba) (Nat.not_lt.mp hab)
        subst this
        simp only [hab, if_false] at h₁
        by_cases hac : a < c
        · simp [hac]
        · by_cases hca : c < a
          · simp [hac, hca] at h₂
          · simp only [hac, hca, if_false] at h₂ ⊢
            exact ih h₁ h₂

theorem QString.qlt_asymm (s t : QString) (h : QString.lt s t = true) :
    QString.lt t s = false := by
  by_contra hc
  have hts : QString.lt t s = true := by simpa using hc
  have := QString.qlt_trans s t s h hts
  simp [QString.qlt_irrefl] at this

theorem QString.qlt_or_eq_or_gt : ∀ (s t : QString),
    QString.lt s t = true ∨ s = t ∨ QString.lt t s = true
  | [], [] => by simp
  | [], _ :: _ => by simp [QString.lt]
  | _ :: _, [] => by simp [QString.lt]
  | a :: as, b :: bs => by
    have ih := QString.qlt_or_eq_or_gt as bs
    simp only [QString.lt]
    rcases Nat.lt_trichotomy a b with hab | hab | hab
    · simp [hab]
    · subst hab
      simp only [Nat.lt_irrefl, if_false, List.cons.injEq, true_and]
      exact ih
    · simp [hab, Nat.lt_asymm hab]

theorem tupleLt_irrefl (a : Int × QString) : tupleLt a a = false := by
  simp [tupleLt, QString.qlt_irrefl]

theorem tupleLt_trans (a b c : Int × QString)
    (h₁ : tupleLt a b = true) (h₂ : tupleLt b c = true) : tupleLt a c = true := by
  simp only [tupleLt] at h₁ h₂ ⊢
  by_cases hab : a.1 < b.1
  · by_cases hbc : b.1 < c.1
    · simp [lt_trans hab hbc]
    · by_cases hcb : c.1 < b.1
      · simp [hbc, hcb] at h₂
      · have e : b.1 = c.1 := le_antisymm (not_lt.mp hcb) (not_lt.mp hbc)
        rw [← e]
        simp [hab]
  · by_cases hba : b.1 < a.1
    · simp [hab, hba] at h₁
    · have e : a.1 = b.1 := le_antisymm (not_lt.mp hba) (not_lt.mp hab)
      simp only [hab, hba, if_false] at h₁
      rw [e]
      by_cases hbc : b.1 < c.1
      · simp [hbc]
      · by_cases hcb : c.1 < b.1
        · simp [hbc, hcb] at h₂
        · simp only [hbc, hcb, if_false] at h₂ ⊢
          exact QString.qlt_trans _ _ _ h₁ h₂

theorem tupleLt_or_eq_or_gt (a b : Int × QString) :
    tupleLt a b = true ∨ a = b ∨ tupleLt b a = true := by
  rcases a with ⟨i, s⟩
  rcases b with ⟨j, t⟩
  simp only [tupleLt, Prod.mk.injEq]
  rcases lt_trichotomy i j with h | h | h
  · simp [h]
  · subst h
    simp only [lt_self_iff_false, if_false, true_and]
    exact QString.qlt_or_eq_or_gt s t
  · simp [h, lt_asymm h]

theorem tupleEq_iff (a b : Int × QString) : tupleEq a b = true ↔ a = b := by
  rcases a with ⟨i, s⟩
  rcases b with ⟨j, t⟩
  simp [tupleEq, QString.eq]

/-! ## Theorems on `FilterEntry` -/

theorem FilterEntry.lt_iff (a b : FilterEntry) :
    a.lt b = true ↔ (a.id < b.id ∨ (a.id = b.id ∧ QString.lt a.name b.name = true)) := by
  simp only [FilterEntry.lt, tupleLt]
  rcases lt_trichotomy a.id b.id with h | h | h
  · simp [h]
  · simp [h]
  · simp [h, lt_asymm h, ne_of_gt h]

theorem FilterEntry.eq_iff (a b : FilterEntry) : a.eq b = true ↔ a = b := by
  rcases a with ⟨i, s⟩
  rcases b with ⟨j, t⟩
  simp [FilterEntry.eq, tupleEq_iff]

theorem FilterEntry.lt_asymm_of_lt (a b : FilterEntry) (h : a.lt b = true) : b.lt a = false := by
  by_contra hc
  have hba : b.lt a = true := by simpa using hc
  have := tupleLt_trans _ _ _ h hba
  simp [tupleLt_irrefl] at this

/-- C8: `FilterEntry::operator<` is a strict total order consistent with
`FilterEntry::operator==(const FilterEntry&)`. It is irreflexive and transitive; it compares
lexicographically, on the id and then on the name; of `a < b`, `a == b` and `b < a` exactly one
holds for any two entries; and a FilterEntrySet takes two entries for duplicates (neither is
smaller than the other) exactly when they have the same id and the same name. -/
theorem FilterEntry.lt_strict_total_order :
    (∀ a : FilterEntry, a.lt a = false) ∧
    (∀ a b c : FilterEntry, a.lt b = true → b.lt c = true → a.lt c = true) ∧
    (∀ a b : FilterEntry,
      a.lt b = true ↔ (a.id < b.id ∨ (a.id = b.id ∧ QString.lt a.name b.name = true))) ∧
    (∀ a b : FilterEntry,
      (a.lt b = true ∧ a.eq b = false ∧ b.lt a = false) ∨
      (a.lt b = false ∧ a.eq b = true ∧ b.lt a = false) ∨
      (a.lt b = false ∧ a.eq b = false ∧ b.lt a = true)) ∧
    (∀ a b : FilterEntry,
      FilterEntrySet.duplicates a b = true ↔ (a.id = b.id ∧ a.name = b.name)) := by
  have irr : ∀ a : FilterEntry, a.lt a = false := fun a => tupleLt_irrefl _
  have neq_of_lt : ∀ a b : FilterEntry, a.lt b = true → a.eq b = false := by
    intro a b h
    by_contra hc
    have he : a.eq b = true := by simpa using hc
    rw [(FilterEntry.eq_iff a b).mp he, irr] at h
    exact Bool.noConfusion h
  have tri : ∀ a b : FilterEntry, a.lt b = true ∨ a = b ∨ b.lt a = true := by
    intro a b
    rcases tupleLt_or_eq_or_gt (a.id, a.name) (b.id, b.name) with h | h | h
    · exact Or.inl h
    · refine Or.inr (Or.inl ?_)
      rcases a with ⟨i, s⟩
      rcases b with ⟨j, t⟩
      simpa using h
    · exact Or.inr (Or.inr h)
  refine ⟨irr, fun a b c h₁ h₂ => tupleLt_trans _ _ _ h₁ h₂, FilterEntry.lt_iff, ?_, ?_⟩
  · intro a b
    rcases tri a b with h | h | h
    · exact Or.inl ⟨h, neq_of_lt a b h, FilterEntry.lt_asymm_of_lt a b h⟩
    · subst h
      exact Or.inr (Or.inl ⟨irr a, (FilterEntry.eq_iff a a).mpr rfl, irr a⟩)
    · refine Or.inr (Or.inr ⟨FilterEntry.lt_asymm_of_lt b a h, ?_, h⟩)
      by_contra hc
      have he : a.eq b = true := by simpa using hc
      have := neq_of_lt b a h
      rw [(FilterEntry.eq_iff a b).mp he, (FilterEntry.eq_iff b b).mpr rfl] at this
      exact Bool.noConfusion this
  · intro a b
    constructor
    · intro hd
      simp only [FilterEntrySet.duplicates, Bool.and_eq_true, Bool.not_eq_true'] at hd
      rcases tri a b with h | h | h
      · rw [h] at hd
        exact Bool.noConfusion hd.1
      · subst h
        exact ⟨rfl, rfl⟩
      · rw [h] at hd
        exact Bool.noConfusion hd.2
    · rintro ⟨hi, hn⟩
      have : a = b := by
        rcases a with ⟨i, s⟩
        rcases b with ⟨j, t⟩
        simp only at hi hn
        rw [hi, hn]
      subst this
      simp [FilterEntrySet.duplicates, irr]

/-- The order at three entries: (1, "a") is below (1, "b"), which is below (2, ""), and so
(1, "a") is below (2, ""). -/
theorem FilterEntry.lt_strict_total_order_witness :
    FilterEntry.lt ⟨1, [97]⟩ ⟨1, [98]⟩ = true ∧ FilterEntry.lt ⟨1, [98]⟩ ⟨2, []⟩ = true ∧
    FilterEntry.lt ⟨1, [97]⟩ ⟨2, []⟩ = true :=
  ⟨by decide, by decide,
   FilterEntry.lt_strict_total_order.2.1 ⟨1, [97]⟩ ⟨1, [98]⟩ ⟨2, []⟩ (by decide) (by decide)⟩

/-! ## Theorems on the ReplayGain page -/

theorem findDataFrom_spec (data : Int) : ∀ (items : List (String × Int)) (i : Int),
    (data ∈ items.map Prod.snd →
      findDataFrom data items i = i + ((items.map Prod.snd).indexOf data : Nat)) ∧
    (data ∉ items.map Prod.snd → findDataFrom data items i = -1)
  | [], i => by simp [findDataFrom]
  | it :: rest, i => by
    have ih := findDataFrom_spec data rest (i + 1)
    by_cases h : it.2 = data
    · simp [findDataFrom, h, List.indexOf_cons_eq]
    · have h' : ¬ data = it.2 := fun e => h e.symm
      have hne : it.2 ≠ data := h
      simp only [findDataFrom, h, if_false, List.map_cons, List.mem_cons, h', false_or]
      refine ⟨fun hm => ?_, fun hm => ih.2 hm⟩
      rw [ih.1 hm, List.indexOf_cons_ne _ hne]
      push_cast
      ring

theorem ReplayGainWidget.new_items (k : RGConstants) :
    (ReplayGainWidget.new k).process.items =
      [("None", k.noProcessing), ("Apply gain", k.applyGain),
       ("Apply gain and prevent clipping according to peak", k.applyGainPreventClipping),
       ("Only prevent clipping according to peak", k.preventClipping)] := rfl

theorem ReplayGainWidget.new_currentIndex (k : RGConstants) :
    (ReplayGainWidget.new k).process.currentIndex = 0 := rfl

theorem ReplayGainWidget.load_process (k : RGConstants) (s : RGSettings) (w : ReplayGainWidget) :
    (ReplayGainWidget.load k s w).process =
      w.process.setCurrentIndex
        (if w.process.findData s.rgMode ≥ 0 then w.process.findData s.rgMode else 0) := by
  unfold ReplayGainWidget.load
  by_cases h : k.toGainType s.rgType = k.track <;>
    simp [h, ReplayGainWidget.checkTrackGain, ReplayGainWidget.checkAlbumGain]

theorem ReplayGainWidget.load_mode_cases (k : RGConstants) (s : RGSettings) (w : ReplayGainWidget)
    (hw : w.process.items = (ReplayGainWidget.new k).process.items) :
    (s.rgMode ∈ k.modes →
      (ReplayGainWidget.load k s w).process.currentIndex = (k.modes.indexOf s.rgMode : Nat) ∧
      (ReplayGainWidget.load k s w).process.currentData = some s.rgMode) ∧
    (s.rgMode ∉ k.modes →
      (ReplayGainWidget.load k s w).process.currentIndex = 0 ∧
      (ReplayGainWidget.load k s w).process.currentData = some k.noProcessing) := by
  rw [ReplayGainWidget.new_items] at hw
  rw [ReplayGainWidget.load_process]
  simp only [QComboBox.findData, QComboBox.setCurrentIndex, QComboBox.currentData, hw,
    findDataFrom, RGConstants.modes, List.mem_cons, List.length_cons, List.length_nil]
  by_cases h1 : k.noProcessing = s.rgMode
  · simp [h1]
  · have h1' : ¬ s.rgMode = k.noProcessing := fun e => h1 e.symm
    by_cases h2 : k.applyGain = s.rgMode
    · simp [h1, h2, List.indexOf_cons]
    · have h2' : ¬ s.rgMode = k.applyGain := fun e => h2 e.symm
      by_cases h3 : k.applyGainPreventClipping = s.rgMode
      · simp [h1, h2, h3, List.indexOf_cons]
      · have h3' : ¬ s.rgMode = k.applyGainPreventClipping := fun e => h3 e.symm
        by_cases h4 : k.preventClipping = s.rgMode
        · simp [h1, h2, h3, h4, List.indexOf_cons]
        · have h4' : ¬ s.rgMode = k.preventClipping := fun e => h4 e.symm
          simp [h1, h2, h3, h4, h1', h2', h3', h4']

theorem ReplayGainWidget.apply_rgMode (k : RGConstants) (s : RGSettings) (w : ReplayGainWidget) :
    (ReplayGainWidget.apply k s w).rgMode = variantToInt w.process.currentData := rfl

/-- C7: the mode of the ReplayGain page. On a widget holding the four entries of the
constructor, `load()` selects the first entry whose data is the stored RGMode `m` when there is
one and entry 0 ("None") otherwise, so the selected index is one of the four entries; `apply()`
right after `load()` writes `m` back when `m` is the data of one of the four entries and
NoProcessing for any other `m`. The four values need not be distinct for this. -/
theorem ReplayGainWidget.load_apply_mode (k : RGConstants) (s : RGSettings)
    (w : ReplayGainWidget) (hw : w.process.items = (ReplayGainWidget.new k).process.items) :
    (s.rgMode ∈ k.modes →
      (ReplayGainWidget.load k s w).process.currentIndex = (k.modes.indexOf s.rgMode : Nat) ∧
      (ReplayGainWidget.load k s w).process.currentData = some s.rgMode) ∧
    (s.rgMode ∉ k.modes →
      (ReplayGainWidget.load k s w).process.currentIndex = 0 ∧
      (ReplayGainWidget.load k s w).process.currentData = some k.noProcessing) ∧
    (ReplayGainWidget.load k s w).process.items.length = 4 ∧
    (0 ≤ (ReplayGainWidget.load k s w).process.currentIndex ∧
      (ReplayGainWidget.load k s w).process.currentIndex < 4) ∧
    (s.rgMode ∈ k.modes →
      (ReplayGainWidget.apply k s (ReplayGainWidget.load k s w)).rgMode = s.rgMode) ∧
    (s.rgMode ∉ k.modes →
      (ReplayGainWidget.apply k s (ReplayGainWidget.load k s w)).rgMode = k.noProcessing) := by
  have hc := ReplayGainWidget.load_mode_cases k s w hw
  refine ⟨hc.1, hc.2, ?_, ?_, ?_, ?_⟩
  · rw [ReplayGainWidget.load_process]
    simp [QComboBox.setCurrentIndex, hw, ReplayGainWidget.new_items]
  · by_cases hm : s.rgMode ∈ k.modes
    · rw [(hc.1 hm).1]
      have hlt : k.modes.indexOf s.rgMode < k.modes.length := List.indexOf_lt_length.mpr hm
      have h4 : k.modes.length = 4 := rfl
      omega
    · rw [(hc.2 hm).1]
      omega
  · intro hm
    rw [ReplayGainWidget.apply_rgMode, (hc.1 hm).2]
    rfl
  · intro hm
    rw [ReplayGainWidget.apply_rgMode, (hc.2 hm).2]
    rfl

/-- The mode round trip with NoProcessing = 0, ApplyGain = 1, PreventClipping = 2: the stored
mode 3 (both flags) selects the third entry and is written back. -/
theorem ReplayGainWidget.load_apply_mode_witness :
    (ReplayGainWidget.load exampleConstants ⟨3, 1⟩
      (ReplayGainWidget.new exampleConstants)).process.currentIndex = 2 ∧
    (ReplayGainWidget.apply exampleConstants ⟨3, 1⟩
      (ReplayGainWidget.load exampleConstants ⟨3, 1⟩
        (ReplayGainWidget.new exampleConstants))).rgMode = 3 :=
  ⟨by decide,
   (ReplayGainWidget.load_apply_mode exampleConstants ⟨3, 1⟩
      (ReplayGainWidget.new exampleConstants) rfl).2.2.2.2.1 (by decide)⟩

/-- The conversion at work: over eight bits the stored type 256 converts to Track, so `load()`
checks the track radio and `apply()` writes Track, which is 0. -/
theorem ReplayGainWidget.load_converts_stored_type :
    (ReplayGainWidget.load exampleConstants ⟨0, 256⟩
      (ReplayGainWidget.new exampleConstants)).trackGain = true ∧
    (ReplayGainWidget.apply exampleConstants ⟨0, 256⟩
      (ReplayGainWidget.load exampleConstants ⟨0, 256⟩
        (ReplayGainWidget.new exampleConstants))).rgType = 0 := by
  decide

/-! ## Theorems on `Application` -/

/-- C1, as stated, fails on the wiring of `Application::Private`: it is not the case that the
Playlist Manager is constructed with the Library Model and the Player Controller with the
Playlist Manager and neither dependency points the other way. Each of the four parts fails:
no playlist member is given the library, the player controller is not given a playlist member,
the library is given the playlist interface, and the playlist handler is given the player
controller. -/
theorem Private.wiring_not_spec_graph :
    ¬ (Private.constructedWith .playlistManager .libraryModel = true ∧
       Private.constructedWith .playerController .playlistManager = true ∧
       Private.constructedWith .libraryModel .playlistManager = false ∧
       Private.constructedWith .playlistManager .playerController = false) ∧
    Private.constructedWith .playlistManager .libraryModel = false ∧
    Private.constructedWith .playerController .playlistManager = false ∧
    Private.constructedWith .libraryModel .playlistManager = true ∧
    Private.constructedWith .playlistManager .playerController = true := by
  decide

/-- C1, amended: in `Application::Private` the dependencies run from the Library Model to the
Playlist Manager to the Player Controller. The library is constructed with the playlist
interface, the playlist interface with the playlist handler, and the playlist handler with the
player controller, which is constructed with the settings manager alone. Neither dependency
points the other way, also through chains of constructor arguments, and every member is
constructed after the members it is given. -/
theorem Private.wiring_library_playlist_player :
    Private.ctorArgs .playerManager = [.settingsManager] ∧
    Private.ctorArgs .playlistHandler = [.playerManager] ∧
    Private.ctorArgs .playlistInterface = [.playlistHandler] ∧
    Member.playlistInterface ∈ Private.ctorArgs .library ∧
    Private.constructedWith .libraryModel .playlistManager = true ∧
    Private.constructedWith .playlistManager .playerController = true ∧
    Private.constructedWith .playlistManager .libraryModel = false ∧
    Private.constructedWith .playerController .playlistManager = false ∧
    Private.dependsOn .playlistManager .libraryModel = false ∧
    Private.dependsOn .playerController .playlistManager = false ∧
    Private.dependsOn .playerController .libraryModel = false ∧
    (∀ m : Member, ∀ arg ∈ Private.ctorArgs m,
      Private.members.indexOf arg < Private.members.indexOf m) := by
  refine ⟨rfl, rfl, rfl, by decide, by decide, by decide, by decide, by decide, by decide,
    by decide, by decide, ?_⟩
  intro m
  cases m <;> decide

/-- C2: the constructor `Application::Application` runs `startup`, which adds exactly the six
calls loadSettings, restoreState, library load, settings dialog setupUi, main window setupUi and
main window show, in this order, to whatever was called before. In all the calls of the
constructor, `MusicLibrary::load()` is made exactly once, after `loadSettings()` and
`restoreState()` and before the settings dialog and the main window are set up and the main
window is shown. -/
theorem Application.startup_loads_library_once :
    (∀ t : Trace, Application.startup t =
      t ++ [.loadSettings, .restoreState, .libraryLoad, .settingsDialogSetupUi,
            .mainWindowSetupUi, .mainWindowShow]) ∧
    (∀ t : Trace, Application.ctor t =
      Application.startup
        (Private.ctor t ++ [.connectQuitThreadManager, .connectQuitPluginManager])) ∧
    (Application.ctor []).count .libraryLoad = 1 ∧
    (Application.startup []).count .libraryLoad = 1 ∧
    (Private.ctor []).count .libraryLoad = 0 ∧
    (Application.ctor []).before .loadSettings .libraryLoad = true ∧
    (Application.ctor []).before .restoreState .libraryLoad = true ∧
    (Application.ctor []).before .libraryLoad .settingsDialogSetupUi = true ∧
    (Application.ctor []).before .libraryLoad .mainWindowSetupUi = true ∧
    (Application.ctor []).before .libraryLoad .mainWindowShow = true ∧
    (Application.ctor []).count .loadSettings = 1 ∧
    (Application.ctor []).count .restoreState = 1 ∧
    (Application.ctor []).count .settingsDialogSetupUi = 1 ∧
    (Application.ctor []).count .mainWindowSetupUi = 1 ∧
    (Application.ctor []).count .mainWindowShow = 1 := by
  refine ⟨fun t => ?_, fun t => ?_, by decide, by decide, by decide, by decide, by decide,
    by decide, by decide, by decide, by decide, by decide, by decide, by decide, by decide⟩
  · simp [Application.startup, Trace.call]
  · simp [Application.ctor, Trace.call]

/-- C3: `registerWidgets()` makes exactly eight registrations, under the names Controls, Info,
Artwork, Playlist, Spacer, Vertical Splitter, Horizontal Splitter and Status, which are pairwise
distinct. So in a registry keyed by name that starts out empty, whether it rejects or overwrites
on a clash, no registration is rejected or overwrites another, the registry ends with eight
entries, and every name maps to exactly one creator, the one it was registered with. -/
theorem Private.registerWidgets_names_distinct (p : ClashPolicy) :
    Private.registrations.length = 8 ∧
    Private.registrations.map Registration.key =
      ["Controls", "Info", "Artwork", "Playlist", "Spacer", "Vertical Splitter",
       "Horizontal Splitter", "Status"] ∧
    (Private.registrations.map Registration.key).Nodup ∧
    (Private.registerWidgets p ⟨[]⟩).2 = List.replicate 8 true ∧
    (Private.registerWidgets p ⟨[]⟩).1.widgets =
      Private.registrations.map (fun r => (r.key, r)) ∧
    (∀ r ∈ Private.registrations,
      (Private.registerWidgets p ⟨[]⟩).1.entries r.key = [r] ∧
      (Private.registerWidgets p ⟨[]⟩).1.creator? r.key = some r.creator) := by
  cases p <;> decide
/-! ## Theorems on the Player Controller -/

theorem PlayerController.valid_transitions (pc : PlayerController) (t : Nat) :
    (pc.state = .Playing → pc.pause = ({ pc with state := .Paused }, .ok ())) ∧
    (pc.state = .Stopped ∨ pc.state = .Paused →
      pc.play (some t) = ({ state := .Playing, track := some t }, .ok ())) ∧
    (pc.state = .Playing ∨ pc.state = .Paused →
      pc.stop = ({ pc with state := .Stopping }, .ok ())) := by
  rcases pc with ⟨s, tr⟩
  cases s <;> simp [PlayerController.pause, PlayerController.play, PlayerController.stop]

/-- C5: for every state of the Player Controller and every command that is not a valid
transition from it, that is `pause()` when not Playing, `play()` when neither Stopped nor
Paused (whatever the current track of the Playlist Manager), `stop()` when neither Playing nor
Paused, the command fails with InvalidStateTransition and the controller after the call is the
controller before it. -/
theorem PlayerController.invalid_transition_rejected (pc : PlayerController) :
    (pc.state ≠ .Playing → pc.pause = (pc, .error .InvalidStateTransition)) ∧
    (pc.state ≠ .Stopped → pc.state ≠ .Paused →
      ∀ current : Option Nat, pc.play current = (pc, .error .InvalidStateTransition)) ∧
    (pc.state ≠ .Playing → pc.state ≠ .Paused →
      pc.stop = (pc, .error .InvalidStateTransition)) := by
  rcases pc with ⟨s, tr⟩
  cases s <;> simp [PlayerController.pause, PlayerController.play, PlayerController.stop]

/-- A controller that is Stopping rejects `pause()`, `play()` and `stop()`, and a Stopped one
rejects `pause()` and `stop()`, with the state unchanged. -/
theorem PlayerController.invalid_transition_rejected_witness :
    PlayerController.pause ⟨.Stopping, some 7⟩ =
      (⟨.Stopping, some 7⟩, .error .InvalidStateTransition) ∧
    PlayerController.play ⟨.Stopping, some 7⟩ (some 8) =
      (⟨.Stopping, some 7⟩, .error .InvalidStateTransition) ∧
    PlayerController.stop ⟨.Stopped, none⟩ =
      (⟨.Stopped, none⟩, .error .InvalidStateTransition) :=
  ⟨(PlayerController.invalid_transition_rejected ⟨.Stopping, some 7⟩).1 (by decide),
   (PlayerController.invalid_transition_rejected ⟨.Stopping, some 7⟩).2.1
     (by decide) (by decide) (some 8),
   (PlayerController.invalid_transition_rejected ⟨.Stopped, none⟩).2.2
     (by decide) (by decide)⟩

/-! ## Theorems on the Synchronizer -/

theorem LibrarySnapshot.collisionFree_of_fingerprintsUnique (L : LibrarySnapshot)
    (hL : L.fingerprintsUnique) : L.collisionFree := by
  intro t ht u hu e
  have := List.inj_on_of_nodup_map hL ht hu e
  rw [this]

/-- The example of section 8 of the specification: with A and B in the library, a scan that
finds B untouched and a new file C, and no longer A, gives the delta that adds C, modifies
nothing and removes A. -/
theorem reconcile_spec_example :
    reconcile exampleExtract [("/music/b.flac", ⟨20, 200⟩), ("/music/c.flac", ⟨30, 300⟩)]
      exampleLibrary =
    { added := [{ id := 3, path := "/music/c.flac", fingerprint := ⟨30, 300⟩,
                  metadata := { title := "/music/c.flac", artist := "", album := "",
                                albumArtist := "", genre := "", year := 0, trackNumber := 0,
                                duration := 1 } }],
      modified := [],
      removed := [1] } := by
  decide

/-- The tie-break at work: when a second file with the fingerprint of A turns up at another
path, it is added under a new id and A stays. -/
theorem reconcile_collision_added :
    reconcile exampleExtract
      [("/music/a.flac", ⟨10, 100⟩), ("/music/b.flac", ⟨20, 200⟩), ("/music/a2.flac", ⟨10, 100⟩)]
      exampleLibrary =
    { added := [exampleTrackA2], modified := [], removed := [] } := by
  decide

end Fooyin
